import Mathlib

/-
Verification of the per-tick player-update core of a Flappy-Bird-style game
(source: src/main.rs).  The four core rules (gravity integration, flap
handling, bounds clamping, position integration) operate on a single player
entity holding a vertical velocity and a 2D/3D translation.  Machine floats
are modelled as exact rationals; Bevy queries returning a single entity are
modelled as lists, with the `get_single` no-op-on-absence behaviour made
explicit; the `Update` schedule of `PlayerPlugin::build` is modelled as a
set of ordering constraints over system labels together with an executable
per-tick semantics for any linearization.
-/

namespace FlappyBird

/-- Translation vector of a Bevy `Transform` (`Vec3`), with exact rational
components in place of `f32`. -/
structure Vec3q where
  x : ℚ
  y : ℚ
  z : ℚ
deriving DecidableEq

/-- The part of a Bevy `Transform` the game logic touches. -/
structure Transform where
  translation : Vec3q
deriving DecidableEq

/-- The `Player` component of src/main.rs: a vertical velocity. -/
structure Player where
  y_vel : ℚ
deriving DecidableEq

/-- Constant `SCREEN_SCALE` of src/main.rs. -/
def SCREEN_SCALE : ℚ := 4

/-- Constant `BASE_RESOLUTION` of src/main.rs (x = 144, y = 200). -/
def BASE_RESOLUTION : ℚ × ℚ := (144, 200)

/-- Constant `PLAYER_SIZE` of src/main.rs (x = 17, y = 12). -/
def PLAYER_SIZE : ℚ × ℚ := (17, 12)

/-- Constant `GRAVITY` of src/main.rs. -/
def GRAVITY : ℚ := -650

/-- Constant `JUMP_VELOCITY` of src/main.rs. -/
def JUMP_VELOCITY : ℚ := 150

/-- Body of `gravity_system` on the single matched player:
`player.y_vel += GRAVITY * time.delta_seconds()`. -/
def gravity_update (p : Player) (dt : ℚ) : Player :=
  { p with y_vel := p.y_vel + GRAVITY * dt }

/-- Body of `move_system` on the single matched entity:
`player_transform.translation += Vec3::Y * player.y_vel * time.delta_seconds()`.
`Vec3::Y = (0, 1, 0)`, so only the y component changes. -/
def move_update (t : Transform) (p : Player) (dt : ℚ) : Transform :=
  { t with translation := { t.translation with y := t.translation.y + p.y_vel * dt } }

/-- Body of `player_flap_system` on the single matched player: if at least one
`FlapEvent` was read this tick, set `y_vel = JUMP_VELOCITY` and spawn one
`AudioBundle`.  The second component counts the audio triggers fired. -/
def player_flap_update (p : Player) (flap : Bool) : Player × ℕ :=
  if flap then ({ p with y_vel := JUMP_VELOCITY }, 1) else (p, 0)

/-- Body of `constrain_player_system` on the single matched entity:
clamp the translation to `[-PLAYER_SIZE.y, BASE_RESOLUTION.y + PLAYER_SIZE.y]`
and zero the velocity, but only when the velocity drives the entity further
out of bounds. -/
def constrain_update (t : Transform) (p : Player) : Transform × Player :=
  if t.translation.y < -PLAYER_SIZE.2 ∧ p.y_vel < 0 then
    ({ t with translation := { t.translation with y := -PLAYER_SIZE.2 } }, { p with y_vel := 0 })
  else if t.translation.y > BASE_RESOLUTION.2 + PLAYER_SIZE.2 ∧ p.y_vel > 0 then
    ({ t with translation := { t.translation with y := BASE_RESOLUTION.2 + PLAYER_SIZE.2 } },
      { p with y_vel := 0 })
  else (t, p)

/-- Spec-side clamp contract of section 4.3, written from the spec's words:
a pure function of position, velocity and the two bounds. -/
def clampSpec (position velocity lowerBound upperBound : ℚ) : ℚ × ℚ :=
  if position < lowerBound ∧ velocity < 0 then (lowerBound, 0)
  else if position > upperBound ∧ velocity > 0 then (upperBound, 0)
  else (position, velocity)

/-- Bevy's `Query::get_single_mut` applied through an update `f`: the update
runs exactly when the query matches exactly one entity, otherwise the world
is left untouched (no error is raised). -/
def run_single {α : Type} (f : α → α) : List α → List α
  | [a] => [f a]
  | l => l

/-- `gravity_system` over the list of entities matching `Query<&mut Player>`. -/
def gravity_system (players : List Player) (dt : ℚ) : List Player :=
  run_single (fun p => gravity_update p dt) players

/-- `player_flap_system` over the matching entities; also returns the number
of audio triggers spawned this tick. -/
def player_flap_system (players : List Player) (flap : Bool) : List Player × ℕ :=
  match players with
  | [p] => ([(player_flap_update p flap).1], (player_flap_update p flap).2)
  | l => (l, 0)

/-- `constrain_player_system` over the entities matching
`Query<(&mut Player, &mut Transform)>`. -/
def constrain_player_system (world : List (Transform × Player)) : List (Transform × Player) :=
  run_single (fun tp => constrain_update tp.1 tp.2) world

/-- `move_system` over the entities matching `Query<(&mut Transform, &Player)>`. -/
def move_system (world : List (Transform × Player)) (dt : ℚ) : List (Transform × Player) :=
  run_single (fun tp => (move_update tp.1 tp.2 dt, tp.2)) world

/-- `flap_input_system`: returns whether a `FlapEvent` is sent this tick.
The source returns early (sending nothing) when `query.get_single()` errs,
i.e. when the number of player entities is not exactly one; otherwise it
sends the event iff one of the two mouse buttons was just pressed. -/
def flap_input_system (players : List Player) (edge : Bool) : Bool :=
  match players with
  | [_] => edge
  | _ => false

/-- Labels for the six systems `PlayerPlugin::build` adds to `Update`. -/
inductive SystemLabel where
  | moveS
  | flapInputS
  | playerFlapS
  | gravityS
  | constrainS
  | debugS
deriving DecidableEq, BEq

/-- All systems registered on `Update` by `PlayerPlugin::build`, in
registration order. -/
def allSystems : List SystemLabel :=
  [.moveS, .flapInputS, .playerFlapS, .gravityS, .constrainS, .debugS]

/-- The ordering constraints `PlayerPlugin::build` declares:
`player_flap_system.after(flap_input_system)`,
`gravity_system.before(constrain_player_system)`,
`constrain_player_system.before(move_system)`.  No other pair is ordered. -/
def orderConstraints : List (SystemLabel × SystemLabel) :=
  [(.flapInputS, .playerFlapS), (.gravityS, .constrainS), (.constrainS, .moveS)]

/-- A linearization the Bevy scheduler may execute: a sequence containing
every registered system once that respects every declared constraint. -/
def validOrder (l : List SystemLabel) : Bool :=
  allSystems.all (fun s => l.contains s) && (l.length == allSystems.length) &&
    orderConstraints.all (fun c => decide (l.indexOf c.1 < l.indexOf c.2))

/-- Per-tick inputs supplied by the engine: elapsed seconds and whether a
flap button was just pressed this tick. -/
structure TickInput where
  dt : ℚ
  mouseEdge : Bool

/-- Observable per-tick game state for a world holding exactly one player:
its transform and velocity, whether the `FlapEvent` has been sent so far
this tick, and how many audio triggers have fired. -/
structure GState where
  transform : Transform
  player : Player
  flapSent : Bool
  audio : ℕ
deriving DecidableEq

/-- One system's effect on the single-player tick state. -/
def runSystem (lbl : SystemLabel) (inp : TickInput) (s : GState) : GState :=
  match lbl with
  | .flapInputS => if inp.mouseEdge then { s with flapSent := true } else s
  | .playerFlapS =>
      if s.flapSent then
        { s with player := (player_flap_update s.player true).1,
                 audio := s.audio + (player_flap_update s.player true).2 }
      else s
  | .gravityS => { s with player := gravity_update s.player inp.dt }
  | .constrainS =>
      { s with transform := (constrain_update s.transform s.player).1,
               player := (constrain_update s.transform s.player).2 }
  | .moveS => { s with transform := move_update s.transform s.player inp.dt }
  | .debugS => s

/-- Running the systems of one tick in a given sequence. -/
def runSchedule (order : List SystemLabel) (inp : TickInput) (s : GState) : GState :=
  order.foldl (fun st lbl => runSystem lbl inp st) s

/-- The total order the spec asserts: input edge detection, flap handler,
gravity, clamp, integration (the unconstrained debug system placed last). -/
def claimedOrder : List SystemLabel :=
  [.flapInputS, .playerFlapS, .gravityS, .constrainS, .moveS, .debugS]

/-- Another linearization of the declared constraints: gravity, clamp and
the input/flap pair swapped around, integration last. -/
def altOrder : List SystemLabel :=
  [.gravityS, .constrainS, .flapInputS, .playerFlapS, .moveS, .debugS]

/-- Tick input exercising the schedule ambiguity: dt = 0.1 s and a flap
edge this tick. -/
def tickInput0 : TickInput := { dt := 1/10, mouseEdge := true }

/-- A state above the ceiling and slowly falling, on which different
linearizations of the declared constraints disagree. -/
def state0 : GState :=
  { transform := ⟨⟨48, 250, 0⟩⟩, player := ⟨-5⟩, flapSent := false, audio := 0 }

/-- Spec-side contract of section 4.1, written from the spec's words:
gravity integration as a pure function of velocity, elapsed time and the
gravity constant. -/
def apply_gravity (velocity dt g : ℚ) : ℚ := velocity + g * dt

/-- The source's clamp body coincides with the spec's clamp contract
instantiated at the source's bounds, on the y component of the translation
and the velocity; the other components are untouched. -/
theorem constrain_update_eq_clampSpec (t : Transform) (p : Player) :
    constrain_update t p =
      ({ t with translation := { t.translation with
          y := (clampSpec t.translation.y p.y_vel (-PLAYER_SIZE.2)
                  (BASE_RESOLUTION.2 + PLAYER_SIZE.2)).1 } },
       { p with y_vel := (clampSpec t.translation.y p.y_vel (-PLAYER_SIZE.2)
                  (BASE_RESOLUTION.2 + PLAYER_SIZE.2)).2 }) := by
  unfold constrain_update clampSpec
  split_ifs <;> rfl

/-- The spec's clamp contract is idempotent for any bounds. -/
theorem clampSpec_idem (position velocity lowerBound upperBound : ℚ) :
    clampSpec (clampSpec position velocity lowerBound upperBound).1
      (clampSpec position velocity lowerBound upperBound).2 lowerBound upperBound =
      clampSpec position velocity lowerBound upperBound := by
  unfold clampSpec
  split_ifs <;> simp_all

/-- A `get_single`-style query over a list whose length is not one leaves
the list untouched. -/
theorem run_single_of_length_ne_one {α : Type} (f : α → α) (l : List α) (h : l.length ≠ 1) :
    run_single f l = l := by
  match l with
  | [] => rfl
  | [a] => exact absurd rfl h
  | a :: b :: rest => rfl

/-- Claim C1: the bounds clamp, with lower bound `-PLAYER_SIZE.y = -12` and
upper bound `BASE_RESOLUTION.y + PLAYER_SIZE.y = 212`, returns
`(lowerBound, 0)` when position < lowerBound and velocity < 0, returns
`(upperBound, 0)` when position > upperBound and velocity > 0, and otherwise
returns `(position, velocity)` unchanged — for every position and velocity. -/
theorem clamp_contract :
    -PLAYER_SIZE.2 = (-12 : ℚ) ∧ BASE_RESOLUTION.2 + PLAYER_SIZE.2 = (212 : ℚ) ∧
    ∀ (t : Transform) (p : Player),
      constrain_update t p =
        ({ t with translation := { t.translation with
            y := (clampSpec t.translation.y p.y_vel (-12) 212).1 } },
         { p with y_vel := (clampSpec t.translation.y p.y_vel (-12) 212).2 }) := by
  refine ⟨by norm_num [PLAYER_SIZE], by norm_num [PLAYER_SIZE, BASE_RESOLUTION], fun t p => ?_⟩
  have h := constrain_update_eq_clampSpec t p
  have h12 : -PLAYER_SIZE.2 = (-12 : ℚ) := by norm_num [PLAYER_SIZE]
  have h212 : BASE_RESOLUTION.2 + PLAYER_SIZE.2 = (212 : ℚ) := by
    norm_num [PLAYER_SIZE, BASE_RESOLUTION]
  rw [h12, h212] at h
  exact h

/-- Claim C4: for all velocity, dt and g, the physics step returns exactly
`velocity + g * dt`; `gravity_system` applies it at `g = GRAVITY` and
modifies nothing but the velocity (transform, flap flag and audio count of
the tick state are untouched). -/
theorem gravity_step_exact :
    (∀ velocity dt g : ℚ, apply_gravity velocity dt g = velocity + g * dt) ∧
    (∀ (p : Player) (dt : ℚ),
      gravity_update p dt = { y_vel := apply_gravity p.y_vel dt GRAVITY }) ∧
    (∀ (inp : TickInput) (s : GState),
      (runSystem .gravityS inp s).transform = s.transform ∧
      (runSystem .gravityS inp s).flapSent = s.flapSent ∧
      (runSystem .gravityS inp s).audio = s.audio) :=
  ⟨fun _ _ _ => rfl, fun _ _ => rfl, fun _ _ => ⟨rfl, rfl, rfl⟩⟩

/-- Claim C5: on a tick with the flap signal true, the flap handler sets the
velocity to the fixed jump impulse 150 regardless of the previous velocity
and fires exactly one audio trigger; on a tick with the flap signal false
it leaves the velocity untouched and fires no audio trigger. -/
theorem flap_handler_contract :
    JUMP_VELOCITY = 150 ∧
    (∀ p : Player, player_flap_update p true = ({ y_vel := JUMP_VELOCITY }, 1)) ∧
    (∀ p : Player, player_flap_update p false = (p, 0)) :=
  ⟨rfl, fun _ => rfl, fun _ => rfl⟩

/-- Claim C9: for every position vector, velocity and dt, the position
integrator adds `velocity * dt` to the vertical component only; the
horizontal (and depth) components are unchanged, and the velocity is
unchanged. -/
theorem move_vertical_only (t : Transform) (p : Player) (dt : ℚ) :
    (move_update t p dt).translation.y = t.translation.y + p.y_vel * dt ∧
    (move_update t p dt).translation.x = t.translation.x ∧
    (move_update t p dt).translation.z = t.translation.z ∧
    (∀ (inp : TickInput) (s : GState), (runSystem .moveS inp s).player = s.player) :=
  ⟨rfl, rfl, rfl, fun _ _ => rfl⟩

/-- Claim C10: the bounds clamp is idempotent: applying
`constrain_player_system`'s body twice to any (transform, player) pair gives
the same result as applying it once. -/
theorem clamp_idempotent (t : Transform) (p : Player) :
    constrain_update (constrain_update t p).1 (constrain_update t p).2 = constrain_update t p := by
  simp [constrain_update_eq_clampSpec, clampSpec_idem]

/-- Claim C6: when zero or more than one player entity exists, every core
operation — gravity, flap handling, bounds clamp, position integration — is
a silent no-op: it leaves the world unchanged, fires no audio, and raises
no error. -/
theorem no_single_entity_noop (dt : ℚ) (flap : Bool)
    (players : List Player) (world : List (Transform × Player))
    (hp : players.length ≠ 1) (hw : world.length ≠ 1) :
    gravity_system players dt = players ∧
    player_flap_system players flap = (players, 0) ∧
    constrain_player_system world = world ∧
    move_system world dt = world := by
  refine ⟨run_single_of_length_ne_one _ _ hp, ?_, run_single_of_length_ne_one _ _ hw,
    run_single_of_length_ne_one _ _ hw⟩
  match players with
  | [] => rfl
  | [p] => exact absurd rfl hp
  | a :: b :: rest => rfl

/-- Witness for `no_single_entity_noop` at the empty world (zero players). -/
theorem no_single_entity_noop_witness :
    ([] : List Player).length ≠ 1 ∧ ([] : List (Transform × Player)).length ≠ 1 ∧
    (gravity_system [] (1/10) = [] ∧ player_flap_system [] true = ([], 0) ∧
      constrain_player_system [] = [] ∧ move_system [] (1/10) = []) :=
  ⟨by decide, by decide, no_single_entity_noop (1/10) true [] [] (by decide) (by decide)⟩

/-- Claim C7 counterexample: on a tick with a qualifying input edge but no
player entity, `flap_input_system` returns early and the flap event is NOT
emitted — refuting the claim that the signal is still computed/emitted. -/
theorem flap_event_not_emitted_without_player :
    flap_input_system ([] : List Player) true = false := rfl

/-- Claim C7 (amended): the flap event is emitted iff exactly one player
entity exists AND a qualifying input edge occurred this tick; with zero (or
several) players the input system returns early and emits nothing. -/
theorem flap_event_emission (players : List Player) (edge : Bool) :
    flap_input_system players edge = (decide (players.length = 1) && edge) := by
  match players with
  | [] => rfl
  | [p] => rfl
  | a :: b :: rest => rfl

/-- Claim C2 counterexample: a player below the floor with zero velocity
(position -20, velocity 0) is NOT clamped — after the bounds-clamp step the
position is still -20, outside [-12, 212]. -/
theorem clamp_bounds_counterexample :
    (constrain_update ⟨⟨48, -20, 0⟩⟩ ⟨0⟩).1.translation.y = -20 ∧
    ¬((-12 : ℚ) ≤ -20 ∧ (-20 : ℚ) ≤ 212) := by
  constructor
  · norm_num [constrain_update, PLAYER_SIZE, BASE_RESOLUTION]
  · decide

/-- Claim C2 (amended): after the bounds-clamp step the vertical position
lies in [-12, 212] provided the incoming state is already in bounds or its
velocity drives it further out of bounds (below the floor and falling, or
above the ceiling and rising). -/
theorem clamp_bounds_conditional (t : Transform) (p : Player)
    (h : (-12 ≤ t.translation.y ∧ t.translation.y ≤ 212) ∨
         (t.translation.y < -12 ∧ p.y_vel < 0) ∨
         (212 < t.translation.y ∧ 0 < p.y_vel)) :
    -12 ≤ (constrain_update t p).1.translation.y ∧
      (constrain_update t p).1.translation.y ≤ 212 := by
  simp only [constrain_update, PLAYER_SIZE, BASE_RESOLUTION]
  split_ifs with h1 h2
  · norm_num
  · norm_num
  · simp only []
    rcases h with h | h | h
    · exact h
    · exact absurd ⟨by linarith [h.1], h.2⟩ h1
    · exact absurd ⟨by linarith [h.1], h.2⟩ h2

/-- Witness for `clamp_bounds_conditional`: a state below the floor and
falling (position -20, velocity -5) is clamped back into [-12, 212]. -/
theorem clamp_bounds_conditional_witness :
    ((⟨⟨48, -20, 0⟩⟩ : Transform).translation.y < -12 ∧ (⟨-5⟩ : Player).y_vel < 0) ∧
    (-12 ≤ (constrain_update ⟨⟨48, -20, 0⟩⟩ ⟨-5⟩).1.translation.y ∧
      (constrain_update ⟨⟨48, -20, 0⟩⟩ ⟨-5⟩).1.translation.y ≤ 212) :=
  ⟨by decide, clamp_bounds_conditional ⟨⟨48, -20, 0⟩⟩ ⟨-5⟩ (Or.inr (Or.inl (by decide)))⟩

/-- Claim C3 counterexample: the schedule constraints declared by
`PlayerPlugin::build` do not force the claimed total order.  `altOrder`
(gravity, clamp, input, flap, move, debug) satisfies every declared
constraint just as `claimedOrder` does, yet running the two linearizations
on the same tick input and state produces different final states (final
vertical position 265 versus 212). -/
theorem schedule_order_not_unique :
    validOrder claimedOrder = true ∧ validOrder altOrder = true ∧
    (runSchedule altOrder tickInput0 state0).transform.translation.y = 265 ∧
    (runSchedule claimedOrder tickInput0 state0).transform.translation.y = 212 ∧
    runSchedule altOrder tickInput0 state0 ≠ runSchedule claimedOrder tickInput0 state0 := by
  have halt : (runSchedule altOrder tickInput0 state0).transform.translation.y = 265 := by
    norm_num [runSchedule, runSystem, altOrder, tickInput0, state0, gravity_update,
      constrain_update, move_update, player_flap_update, GRAVITY, JUMP_VELOCITY,
      PLAYER_SIZE, BASE_RESOLUTION]
  have hcl : (runSchedule claimedOrder tickInput0 state0).transform.translation.y = 212 := by
    norm_num [runSchedule, runSystem, claimedOrder, tickInput0, state0, gravity_update,
      constrain_update, move_update, player_flap_update, GRAVITY, JUMP_VELOCITY,
      PLAYER_SIZE, BASE_RESOLUTION]
  refine ⟨by decide, by decide, halt, hcl, fun h => ?_⟩
  rw [h, hcl] at halt
  norm_num at halt

/-- Claim C3 (amended): `PlayerPlugin::build` declares only the constraints
input-before-flap and gravity-before-clamp-before-integrate; the claimed
total order (input, flap, gravity, clamp, integrate) is one valid
linearization of these constraints, but not the only one — the declared
order is partial, not total. -/
theorem schedule_partial_order :
    validOrder claimedOrder = true ∧
    ∃ l, validOrder l = true ∧ l ≠ claimedOrder :=
  ⟨by decide, altOrder, by decide, by decide⟩

/-- Claim C8: starting from vertical position 100 and velocity 0, one tick
with dt = 0.1, gravity -650 and no flap signal yields velocity -65 and
vertical position 93.5 = 187/2, gravity updating the velocity before the
position integration uses it; no clamp triggers and no audio fires. -/
theorem end_to_end_tick :
    (runSchedule claimedOrder { dt := 1/10, mouseEdge := false }
        { transform := ⟨⟨48, 100, 0⟩⟩, player := ⟨0⟩, flapSent := false,
          audio := 0 }).player.y_vel = -65 ∧
    (runSchedule claimedOrder { dt := 1/10, mouseEdge := false }
        { transform := ⟨⟨48, 100, 0⟩⟩, player := ⟨0⟩, flapSent := false,
          audio := 0 }).transform.translation.y = 187/2 ∧
    (runSchedule claimedOrder { dt := 1/10, mouseEdge := false }
        { transform := ⟨⟨48, 100, 0⟩⟩, player := ⟨0⟩, flapSent := false,
          audio := 0 }).audio = 0 := by
  refine ⟨?_, ?_, ?_⟩ <;>
    norm_num [runSchedule, runSystem, claimedOrder, gravity_update, constrain_update,
      move_update, player_flap_update, GRAVITY, JUMP_VELOCITY, PLAYER_SIZE, BASE_RESOLUTION]

end FlappyBird
